import Mathlib

/-!
Shallow embedding of the `task_tg` Codeforces sync pipeline
(src/task_tg/models.py, parser.py, servicies.py, tasks.py).

The database is modelled as an explicit record of table contents with
sequence counters for primary keys.  Network calls are modelled by
explicit inputs: the catalog endpoint as an `ApiResult`, the per-item
detail endpoint as an oracle `DetailOracle` (for orchestration claims)
and as an attempt-indexed response sequence (for the retry claims about
`parse_problem_condition`).
-/

namespace TaskTg

/-- Row of the `tags` table (models.py `Tag`): `name` carries a UNIQUE
constraint in the schema. -/
structure TagRow where
  id : Nat
  name : String
deriving Repr, DecidableEq

/-- Row of the `difficulties` table (models.py `Difficulty`): `value`
carries a UNIQUE constraint in the schema. -/
structure DifficultyRow where
  id : Nat
  value : Int
deriving Repr, DecidableEq

/-- Row of the `problems` table (models.py `Problem`).  NOTE: the mapped
columns put NOT NULL on name, contest_id, index and problem_type, but
declare no unique constraint on (contest_id, index).  The many-to-many
`problem_tags` association is carried as the list of linked tag ids. -/
structure ProblemRow where
  id : Nat
  name : String
  contest_id : Int
  index : String
  problem_type : String
  rating_id : Option Nat
  text_problem : String
  condition_text : String
  total_solved : Option Int
  tag_ids : List Nat
deriving Repr, DecidableEq

/-- Row of the `parsing_states` table (models.py `ParsingState`); the
`updated_at` timestamp column is omitted (wall-clock time is outside the
model and no modelled operation reads it). -/
structure ParsingStateRow where
  id : Nat
  last_problems_hash : Option String
  last_problems_count : Option Int
deriving Repr, DecidableEq

/-- The whole relational store: table contents plus the id sequences. -/
structure DBState where
  problems : List ProblemRow
  tags : List TagRow
  difficulties : List DifficultyRow
  parsing_states : List ParsingStateRow
  next_problem_id : Nat
  next_tag_id : Nat
  next_difficulty_id : Nat
deriving Repr, DecidableEq

/-- A freshly created database: all tables empty, sequences at 1. -/
def emptyDB : DBState :=
  { problems := [], tags := [], difficulties := [], parsing_states := []
    next_problem_id := 1, next_tag_id := 1, next_difficulty_id := 1 }

/-- DatabaseManager.reset_database (parser.py): `drop_all` followed by
`create_all` discards every table and recreates them empty, resetting
the id sequences. -/
def reset_database (_s : DBState) : DBState := emptyDB

/-- One normalized catalog entry as produced by `fetch_problems_list`
and consumed by `process_problems` / `save_problem`.  In Python this is
a dict; `contestIdKey` / `indexKey` record whether the "contest_id" /
"index" KEYS are present (checked by `process_problems`), while
`contest_id : Option Int` records the key's value, which may be the
Python `None` (the API may omit `contestId`, and `p.get("contestId")`
then yields `None` under a present key). -/
structure ProblemData where
  tags : List String := []
  name : String := "Без названия"
  contestIdKey : Bool := true
  contest_id : Option Int := none
  indexKey : Bool := true
  index : String := ""
  ptype : String := "PROGRAMMING"
  rating : Option Int := none
deriving Repr, DecidableEq

/-- One raw problem object of the catalog JSON payload; every field may
be absent. -/
structure RawEntry where
  tags : Option (List String) := none
  name : Option String := none
  contestId : Option Int := none
  index : Option String := none
  ptype : Option String := none
  rating : Option Int := none
deriving Repr, DecidableEq

/-- Outcome of the single HTTP GET against the catalog endpoint:
either a network-level failure (requests.RequestException, including a
non-2xx surfaced by `raise_for_status`), or a JSON body with its
`status` field and `result.problems` list. -/
inductive ApiResult where
  | netFailure
  | response (status : String) (problems : List RawEntry)
deriving Repr, DecidableEq

/-- Errors raised by `fetch_problems_list`: `requestError` models
requests.RequestException, `dataError` models the ValueError raised on
a non-"OK" API status. -/
inductive CatalogError where
  | requestError
  | dataError
deriving Repr, DecidableEq

/-- The per-entry normalization inside `fetch_problems_list`: missing
fields degrade to defaults via dict.get. -/
def rawToProblemData (p : RawEntry) : ProblemData :=
  { tags := p.tags.getD []
    name := p.name.getD "Без названия"
    contestIdKey := true
    contest_id := p.contestId
    indexKey := true
    index := p.index.getD ""
    ptype := p.ptype.getD "PROGRAMMING"
    rating := p.rating }

/-- CodeforcesParser.fetch_problems_list (parser.py): one GET, raising
on network failure, raising ValueError when the payload status is not
"OK", otherwise normalizing every entry. -/
def fetch_problems_list (api : ApiResult) : Except CatalogError (List ProblemData) :=
  match api with
  | .netFailure => .error .requestError
  | .response status problems =>
      if status = "OK" then .ok (problems.map rawToProblemData)
      else .error .dataError

/-- Outcome of one detail-page GET inside `parse_problem_condition`:
a transient requests.RequestException (including non-2xx raised by
`raise_for_status`), a 404 response, a 200 body without the
`.problem-statement` container, or a 200 body whose statement extracts
to text `t`. -/
inductive FetchOutcome where
  | netError
  | notFound
  | noStatement
  | okText (t : String)
deriving Repr, DecidableEq

/-- The `for attempt in range(3)` loop body of
CodeforcesParser.parse_problem_condition: `fuel` is the number of loop
iterations left, `att` the current attempt index.  A 404 or a missing
statement container returns None at once; a RequestException retries
unless this is attempt index 2, in which case None is returned after
logging.  The pair returned is (result, number of GETs issued). -/
def parseGo (resp : Nat → FetchOutcome) : Nat → Nat → Option String × Nat
  | 0, att => (none, att)
  | fuel + 1, att =>
      match resp att with
      | .notFound => (none, att + 1)
      | .noStatement => (none, att + 1)
      | .okText t => (some t, att + 1)
      | .netError =>
          if att = 2 then (none, att + 1) else parseGo resp fuel (att + 1)

/-- CodeforcesParser.parse_problem_condition, abstracted over the
attempt-indexed response sequence of the detail endpoint. -/
def parse_problem_condition (resp : Nat → FetchOutcome) : Option String × Nat :=
  parseGo resp 3 0

/-- The difficulty upsert block of `save_problem`: look up by value,
insert-and-flush when absent; returns the referenced difficulty id. -/
def upsertDifficulty (rating : Option Int) (s : DBState) : Option Nat × DBState :=
  match rating with
  | none => (none, s)
  | some r =>
      match s.difficulties.find? (fun d => d.value == r) with
      | some d => (some d.id, s)
      | none =>
          (some s.next_difficulty_id,
           { s with
               difficulties := s.difficulties ++ [⟨s.next_difficulty_id, r⟩]
               next_difficulty_id := s.next_difficulty_id + 1 })

/-- The tag upsert loop of `save_problem`: falsy (empty) names are
skipped; each name is looked up and inserted-and-flushed when absent;
the referenced tag ids are collected in order. -/
def upsertTags (names : List String) (s : DBState) : List Nat × DBState :=
  match names with
  | [] => ([], s)
  | n :: rest =>
      if n = "" then upsertTags rest s
      else
        match s.tags.find? (fun t => t.name == n) with
        | some t =>
            let r := upsertTags rest s
            (t.id :: r.1, r.2)
        | none =>
            let s1 : DBState :=
              { s with
                  tags := s.tags ++ [⟨s.next_tag_id, n⟩]
                  next_tag_id := s.next_tag_id + 1 }
            let r := upsertTags rest s1
            (s.next_tag_id :: r.1, r.2)

/-- CodeforcesParser.save_problem (parser.py): upserts the difficulty
and the tags, then inserts a NEW Problem row and commits.  A Python
`None` contest_id violates the NOT NULL constraint at commit time: the
IntegrityError is caught, its origin is not a UniqueViolation, the
session is rolled back (undoing the flushed tag/difficulty inserts too)
and False is returned.  Because the schema has no unique constraint on
(contest_id, index), a duplicate natural key does NOT raise: the row is
inserted and True is returned. -/
def save_problem (pd : ProblemData) (condition_text : String) (s : DBState) :
    Bool × DBState :=
  let d := upsertDifficulty pd.rating s
  let t := upsertTags pd.tags d.2
  match pd.contest_id with
  | none => (false, s)
  | some cid =>
      (true,
       { t.2 with
           problems := t.2.problems ++
             [{ id := t.2.next_problem_id
                name := pd.name
                contest_id := cid
                index := pd.index
                problem_type := pd.ptype
                rating_id := d.1
                text_problem := ""
                condition_text := condition_text
                total_solved := none
                tag_ids := t.1 }]
           next_problem_id := t.2.next_problem_id + 1 })

/-- The statistics dict of `process_problems`. -/
structure Stats where
  processed : Nat
  errors : Nat
  skipped : Nat
deriving Repr, DecidableEq

/-- The detail endpoint as seen by the orchestrator: maps the
(contest_id value, index) arguments of `parse_problem_condition` to its
Optional[str] result. -/
abbrev DetailOracle := Option Int → String → Option String

/-- The item loop of CodeforcesParser.process_problems: items missing
the "contest_id" or "index" KEY count as errors; otherwise the detail
text is fetched (the middle component counts these fetch calls), a
falsy (None or empty) text counts as skipped, and a successful
`save_problem` increments processed — a failed save increments
nothing. -/
def processProblemsAux (detail : DetailOracle) (items : List ProblemData)
    (stats : Stats) (fetches : Nat) (s : DBState) : Stats × Nat × DBState :=
  match items with
  | [] => (stats, fetches, s)
  | pd :: rest =>
      if pd.contestIdKey && pd.indexKey then
        match detail pd.contest_id pd.index with
        | none =>
            processProblemsAux detail rest
              { stats with skipped := stats.skipped + 1 } (fetches + 1) s
        | some t =>
            if t = "" then
              processProblemsAux detail rest
                { stats with skipped := stats.skipped + 1 } (fetches + 1) s
            else
              let r := save_problem pd t s
              processProblemsAux detail rest
                (if r.1 then { stats with processed := stats.processed + 1 }
                 else stats)
                (fetches + 1) r.2
      else
        processProblemsAux detail rest
          { stats with errors := stats.errors + 1 } fetches s

/-- CodeforcesParser.process_problems: runs the item loop with zeroed
statistics; the middle component instruments the number of
`parse_problem_condition` calls made. -/
def process_problems (detail : DetailOracle) (items : List ProblemData)
    (s : DBState) : Stats × Nat × DBState :=
  processProblemsAux detail items ⟨0, 0, 0⟩ 0 s

/-- Observable outcome of CodeforcesParser.run: `failed` when the
caught exception is re-raised to the caller, `emptyCatalog` for the
early `return` on an empty list, `completed` with the (logged)
statistics dict otherwise.  (The Python method itself returns None in
every case; the statistics are carried here so they can be observed.) -/
inductive RunResult where
  | failed
  | emptyCatalog
  | completed (st : Stats)
deriving Repr, DecidableEq

/-- CodeforcesParser.run (parser.py): FIRST resets the whole database,
THEN fetches the catalog; a catalog failure propagates to the caller;
an empty catalog returns early; otherwise every item is processed.  The
middle component counts the detail fetches performed. -/
def run (api : ApiResult) (detail : DetailOracle) (s : DBState) :
    RunResult × Nat × DBState :=
  let s0 := reset_database s
  match fetch_problems_list api with
  | .error _ => (.failed, 0, s0)
  | .ok [] => (.emptyCatalog, 0, s0)
  | .ok items =>
      let r := process_problems detail items s0
      (.completed r.1, r.2.1, r.2.2)

/-- `db.query(Problem).order_by(Problem.id.desc()).first()` from
servicies.check_changes: the stored problem row of maximal id. -/
def lastProblemByIdDesc (s : DBState) : Option ProblemRow :=
  s.problems.foldl
    (fun acc r =>
      match acc with
      | none => some r
      | some m => if m.id < r.id then some r else some m)
    none

/-- servicies.check_changes: fetches the catalog (None on network
failure or non-"OK" status), then compares the current problem count
with `total_solved` of the most recent stored row; no stored row or a
null total_solved reports a change (`some true`), a matching count
reports no change (`some false`). -/
def check_changes (api : ApiResult) (s : DBState) : Option Bool :=
  match api with
  | .netFailure => none
  | .response status problems =>
      if status = "OK" then
        match lastProblemByIdDesc s with
        | none => some true
        | some lp =>
            match lp.total_solved with
            | none => some true
            | some ts =>
                if ts = (problems.length : Int) then some false else some true
      else none

/-- The attribute names resolvable on a CodeforcesParser instance: the
instance attributes set in `__init__` plus the methods defined by the
class (parser.py lines 47-297). -/
def codeforcesParserAttributes : List String :=
  ["logger", "db_manager", "session", "scraper", "headers",
   "__init__", "fetch_problems_list", "parse_problem_condition",
   "save_problem", "process_problems", "run"]

/-- The scheduled task body shared by tasks.check_for_new_problems and
celery.check_for_new_problems: constructs a CodeforcesParser (which
succeeds) and then resolves the attribute
`check_and_parse_new_problems` on it, raising AttributeError when the
lookup fails. -/
def check_for_new_problems : Except String Unit :=
  if "check_and_parse_new_problems" ∈ codeforcesParserAttributes then
    Except.ok ()
  else
    Except.error "AttributeError"

/-- The sample problem dict of test_parser.py (`sample_problem_data`). -/
def testProblemData : ProblemData :=
  { tags := ["dp", "graphs"], name := "Test Problem",
    contest_id := some 123, index := "A", ptype := "PROGRAMMING",
    rating := some 1500 }

/-- A one-entry catalog payload: the scenario item of the spec. -/
def rawGood : RawEntry :=
  { tags := some ["dp"], name := some "X", contestId := some 1,
    index := some "A", ptype := some "PROGRAMMING", rating := some 1500 }

/-- A detail oracle that always yields a non-empty statement text. -/
def demoOracle : DetailOracle := fun _ _ => some "text"

/-- An item whose "contest_id" key is present with value None: the
insert violates the NOT NULL constraint, so `save_problem` hits its
IntegrityError branch with a non-unique origin and returns False. -/
def badP : ProblemData :=
  { tags := [], name := "X", contest_id := none, index := "A",
    ptype := "PROGRAMMING", rating := none }

/-- A store for which `check_changes` reports no change against a
one-entry catalog: its most recent problem row (the count row written
by `smart_repars_check`) has `total_solved = 1`. -/
def noChangeState : DBState :=
  { problems := [{ id := 1, name := "Total Problems Count",
                   contest_id := 0, index := "Z", problem_type := "COUNT",
                   rating_id := none, text_problem := "",
                   condition_text := "1", total_solved := some 1,
                   tag_ids := [] }]
    tags := [], difficulties := [], parsing_states := []
    next_problem_id := 2, next_tag_id := 1, next_difficulty_id := 1 }

/-! Helper lemmas. -/

/-- The difficulty upsert never touches the parsing_states table. -/
lemma upsertDifficulty_parsing_states (r : Option Int) (s : DBState) :
    ((upsertDifficulty r s).2).parsing_states = s.parsing_states := by
  unfold upsertDifficulty
  cases r with
  | none => rfl
  | some v =>
      cases h : s.difficulties.find? (fun d => d.value == v) <;> simp [h]

/-- The tag upsert loop never touches the parsing_states table. -/
lemma upsertTags_parsing_states :
    ∀ (names : List String) (s : DBState),
      ((upsertTags names s).2).parsing_states = s.parsing_states := by
  intro names
  induction names with
  | nil => intro s; rfl
  | cons n rest ih =>
      intro s
      unfold upsertTags
      by_cases hn : n = ""
      · simp [hn, ih]
      · simp only [hn, if_false]
        cases h : s.tags.find? (fun t => t.name == n) <;> simp [h, ih]

/-- save_problem never touches the parsing_states table. -/
lemma save_problem_parsing_states (pd : ProblemData) (t : String) (s : DBState) :
    ((save_problem pd t s).2).parsing_states = s.parsing_states := by
  unfold save_problem
  cases h : pd.contest_id with
  | none => simp [h]
  | some cid =>
      simp [h, upsertTags_parsing_states, upsertDifficulty_parsing_states]

/-- The item loop never touches the parsing_states table. -/
lemma processProblemsAux_parsing_states (d : DetailOracle) :
    ∀ (items : List ProblemData) (st : Stats) (n : Nat) (s : DBState),
      ((processProblemsAux d items st n s).2.2).parsing_states = s.parsing_states := by
  intro items
  induction items with
  | nil => intro st n s; rfl
  | cons pd rest ih =>
      intro st n s
      unfold processProblemsAux
      by_cases hk : pd.contestIdKey && pd.indexKey
      · simp only [hk, if_true]
        cases hdet : d pd.contest_id pd.index with
        | none => simp [ih]
        | some t =>
            by_cases ht : t = ""
            · simp [ht, ih]
            · simp only [ht, if_false]
              rw [ih]
              exact save_problem_parsing_states pd t s
      · simp [hk, ih]

/-- The fetch counter of the item loop is a pure accumulator: starting
it one higher raises the final count by one and changes nothing else. -/
lemma processProblemsAux_fetch_succ (d : DetailOracle) :
    ∀ (items : List ProblemData) (st : Stats) (n : Nat) (s : DBState),
      processProblemsAux d items st (n + 1) s =
        ((processProblemsAux d items st n s).1,
         (processProblemsAux d items st n s).2.1 + 1,
         (processProblemsAux d items st n s).2.2) := by
  intro items
  induction items with
  | nil => intro st n s; simp [processProblemsAux]
  | cons pd rest ih =>
      intro st n s
      by_cases hk : (pd.contestIdKey && pd.indexKey) = true
      · cases hdet : d pd.contest_id pd.index with
        | none =>
            simp only [processProblemsAux, hk, if_true, hdet]
            exact ih _ (n + 1) s
        | some t =>
            by_cases ht : t = ""
            · simp only [processProblemsAux, hk, if_true, hdet, ht]
              exact ih _ (n + 1) s
            · simp only [processProblemsAux, hk, if_true, hdet, ht, if_false]
              exact ih _ (n + 1) _
      · simp only [processProblemsAux, hk, if_false]
        exact ih _ n s

/-- When every item carries both the "contest_id" and "index" keys, the
item loop issues exactly one detail fetch per item. -/
lemma processProblemsAux_fetch_count (d : DetailOracle) :
    ∀ (items : List ProblemData),
      (∀ pd ∈ items, pd.contestIdKey = true ∧ pd.indexKey = true) →
      ∀ (st : Stats) (n : Nat) (s : DBState),
        (processProblemsAux d items st n s).2.1 = n + items.length := by
  intro items
  induction items with
  | nil => intro _ st n s; simp [processProblemsAux]
  | cons pd rest ih =>
      intro h st n s
      have hpd := h pd (by simp)
      have hrest : ∀ q ∈ rest, q.contestIdKey = true ∧ q.indexKey = true :=
        fun q hq => h q (by simp [hq])
      unfold processProblemsAux
      have hk : (pd.contestIdKey && pd.indexKey) = true := by
        rw [hpd.1, hpd.2]; rfl
      simp only [hk, if_true]
      cases hdet : d pd.contest_id pd.index with
      | none => rw [ih hrest]; simp [List.length]; omega
      | some t =>
          by_cases ht : t = ""
          · simp only [ht, if_true]
            rw [ih hrest]; simp [List.length]; omega
          · simp only [ht, if_false]
            rw [ih hrest]; simp [List.length]; omega

/-! Claim theorems. -/

/-- C1: the spec claims at most one Item row per (contestId, index);
the `problems` table has no unique constraint on (contest_id, index),
so saving the same problem twice (exactly the scenario of the repo's
own `test_duplicate_problem_handling`, which asserts the count stays 1)
succeeds both times and leaves two rows with the same natural key. -/
theorem C1_duplicate_natural_key_inserted :
    (save_problem testProblemData "Test condition text"
        (save_problem testProblemData "Test condition text" emptyDB).2).1 = true ∧
    ((save_problem testProblemData "Test condition text"
        (save_problem testProblemData "Test condition text" emptyDB).2).2.problems.filter
        (fun r => r.contest_id == 123 && r.index == "A")).length = 2 := by
  constructor <;> rfl

/-- C2: counterexample to "the second run's processed count is 0" —
with the identical one-item catalog and detail text on both runs, the
second run reports processed = 1 (the database is reset at the start of
each run and everything is reprocessed), not 0. -/
theorem C2_second_run_reprocesses :
    (run (ApiResult.response "OK" [rawGood]) demoOracle
        (run (ApiResult.response "OK" [rawGood]) demoOracle emptyDB).2.2).1 =
      RunResult.completed { processed := 1, errors := 0, skipped := 0 } ∧
    (run (ApiResult.response "OK" [rawGood]) demoOracle
        (run (ApiResult.response "OK" [rawGood]) demoOracle emptyDB).2.2).1 ≠
      RunResult.completed { processed := 0, errors := 0, skipped := 0 } := by
  constructor
  · rfl
  · decide

/-- C2 amended: a second run with identical upstream data returns
exactly the same statistics and final store as the first (so the total
Item row count is unchanged), because the run resets the database first
and never reads the prior state; its processed count equals the first
run's, not 0. -/
theorem C2_run_state_independent (api : ApiResult) (d : DetailOracle) (s : DBState) :
    run api d ((run api d s).2.2) = run api d s := rfl

/-- C3: counterexample to "no state mutation occurs on catalog
failure" — starting from a store holding one problem row, a run whose
catalog fetch raises ends with the failure surfaced but with an empty
problems table: the database was dropped and recreated before the
fetch. -/
theorem C3_failed_run_wipes_store :
    (run ApiResult.netFailure demoOracle noChangeState).1 = RunResult.failed ∧
    (run ApiResult.netFailure demoOracle noChangeState).2.2.problems = [] ∧
    noChangeState.problems ≠ [] := by
  refine ⟨rfl, rfl, ?_⟩
  decide

/-- C3 amended: when the catalog fetch raises (network failure or
non-"OK" API status), the run aborts with the failure surfaced to the
caller and writes no item rows, but the stored data is not preserved:
the final state is the freshly reset empty database, the prior contents
having been dropped before the fetch. -/
theorem C3_abort_surfaced_after_reset (d : DetailOracle) (s : DBState)
    (status : String) (ps : List RawEntry) :
    run ApiResult.netFailure d s = (RunResult.failed, 0, emptyDB) ∧
    (status ≠ "OK" →
      run (ApiResult.response status ps) d s = (RunResult.failed, 0, emptyDB)) := by
  constructor
  · rfl
  · intro h
    simp [run, fetch_problems_list, reset_database, h]

/-- C3 witness: the amended statement at a network failure and at the
spec's "FAILED"-status scenario, from a non-empty store. -/
theorem C3_abort_witness :
    run ApiResult.netFailure demoOracle noChangeState = (RunResult.failed, 0, emptyDB) ∧
    run (ApiResult.response "FAILED" []) demoOracle noChangeState =
      (RunResult.failed, 0, emptyDB) :=
  ⟨(C3_abort_surfaced_after_reset demoOracle noChangeState "FAILED" []).1,
   (C3_abort_surfaced_after_reset demoOracle noChangeState "FAILED" []).2 (by decide)⟩

/-- C4: counterexample to the no-change short-circuit — on a store and
catalog for which check_changes reports no change (`some false`), the
run still issues one detail fetch and recreates an Item row: `run`
never consults the change detector. -/
theorem C4_no_short_circuit_example :
    check_changes (ApiResult.response "OK" [rawGood]) noChangeState = some false ∧
    (run (ApiResult.response "OK" [rawGood]) demoOracle noChangeState).2.1 = 1 ∧
    (run (ApiResult.response "OK" [rawGood]) demoOracle noChangeState).2.2.problems.length
      = 1 := by
  refine ⟨rfl, rfl, rfl⟩

/-- C4 amended: the sync entrypoint does not consult the ChangeDetector:
even when check_changes reports no change between the current catalog
and the stored state, a run over a non-empty catalog performs one
detail fetch per catalog item (and recreates the store) instead of
short-circuiting. -/
theorem C4_fetches_despite_no_change (ps : List RawEntry) (d : DetailOracle)
    (s : DBState)
    (hnc : check_changes (ApiResult.response "OK" ps) s = some false)
    (hne : ps ≠ []) :
    (run (ApiResult.response "OK" ps) d s).2.1 = ps.length := by
  cases ps with
  | nil => exact absurd rfl hne
  | cons p rest =>
      have hkeys : ∀ pd ∈ rawToProblemData p :: rest.map rawToProblemData,
          pd.contestIdKey = true ∧ pd.indexKey = true := by
        intro pd hpd
        rcases List.mem_cons.mp hpd with h | h
        · rw [h]; exact ⟨rfl, rfl⟩
        · rcases List.mem_map.mp h with ⟨q, _, hq⟩
          rw [← hq]; exact ⟨rfl, rfl⟩
      have hrun : (run (ApiResult.response "OK" (p :: rest)) d s).2.1 =
          (processProblemsAux d (rawToProblemData p :: rest.map rawToProblemData)
            ⟨0, 0, 0⟩ 0 emptyDB).2.1 := rfl
      rw [hrun, processProblemsAux_fetch_count d _ hkeys]
      simp

/-- C4 witness: the amended statement at the concrete no-change store
and one-entry catalog. -/
theorem C4_fetches_witness :
    (run (ApiResult.response "OK" [rawGood]) demoOracle noChangeState).2.1 =
      [rawGood].length :=
  C4_fetches_despite_no_change [rawGood] demoOracle noChangeState rfl (by decide)

/-- C5: every invocation of run resets the database before fetching the
catalog: the run's outcome and final state never depend on the prior
store contents, and a run that fails (network failure or bad API
status) still leaves the freshly reset empty database — the previously
stored rows are gone. -/
theorem C5_reset_first (api : ApiResult) (d : DetailOracle) (s s' : DBState)
    (status : String) (ps : List RawEntry) :
    run api d s = run api d s' ∧
    (run ApiResult.netFailure d s).2.2 = emptyDB ∧
    (status ≠ "OK" →
      (run (ApiResult.response status ps) d s).2.2 = emptyDB) := by
  refine ⟨rfl, rfl, ?_⟩
  intro h
  simp [run, fetch_problems_list, reset_database, h]

/-- C5 witness: the statement at a populated store, an identical empty
store, and the "FAILED" catalog status. -/
theorem C5_reset_first_witness :
    run (ApiResult.response "OK" [rawGood]) demoOracle noChangeState =
      run (ApiResult.response "OK" [rawGood]) demoOracle emptyDB ∧
    (run ApiResult.netFailure demoOracle noChangeState).2.2 = emptyDB ∧
    (run (ApiResult.response "FAILED" []) demoOracle noChangeState).2.2 = emptyDB :=
  ⟨(C5_reset_first (ApiResult.response "OK" [rawGood]) demoOracle noChangeState
      emptyDB "FAILED" []).1,
   (C5_reset_first (ApiResult.response "OK" [rawGood]) demoOracle noChangeState
      emptyDB "FAILED" []).2.1,
   (C5_reset_first (ApiResult.response "OK" [rawGood]) demoOracle noChangeState
      emptyDB "FAILED" []).2.2 (by decide)⟩

/-- C6: counterexample to "exactly one SyncState row is appended after
every successful run" — a successful completed run ends with an empty
parsing_states table: nothing in the pipeline ever writes it. -/
theorem C6_no_sync_state_example :
    (run (ApiResult.response "OK" [rawGood]) demoOracle emptyDB).1 =
      RunResult.completed { processed := 1, errors := 0, skipped := 0 } ∧
    (run (ApiResult.response "OK" [rawGood]) demoOracle emptyDB).2.2.parsing_states
      = [] := by
  exact ⟨rfl, rfl⟩

/-- C6 amended: no SyncState row is ever recorded: the pipeline defines
no record-sync-state operation and never writes ParsingState, so after
every run — successful or not — the parsing_states table is empty (it
is recreated empty by the initial reset and never touched again). -/
theorem C6_parsing_states_always_empty (api : ApiResult) (d : DetailOracle)
    (s : DBState) :
    ((run api d s).2.2).parsing_states = [] := by
  unfold run reset_database
  cases api with
  | netFailure => rfl
  | response status problems =>
      by_cases h : status = "OK"
      · simp only [fetch_problems_list, h, if_pos rfl]
        cases hm : problems.map rawToProblemData with
        | nil => rfl
        | cons q rest =>
            simp only [process_problems]
            exact processProblemsAux_parsing_states d _ _ _ _
      · simp [fetch_problems_list, h, emptyDB]

/-- C7: parse_problem_condition makes at most 3 detail-page attempts,
and when all three attempts fail with a transient network error it
returns None (no exception) after exactly 3 attempts. -/
theorem C7_detail_retry_bounded (resp : Nat → FetchOutcome) :
    (parse_problem_condition resp).2 ≤ 3 ∧
    ((resp 0 = FetchOutcome.netError ∧ resp 1 = FetchOutcome.netError ∧
        resp 2 = FetchOutcome.netError) →
      parse_problem_condition resp = (none, 3)) := by
  constructor
  · unfold parse_problem_condition
    cases h0 : resp 0 <;> simp [parseGo, h0]
    cases h1 : resp 1 <;> simp [parseGo, h1]
    cases h2 : resp 2 <;> simp [parseGo, h2]
  · rintro ⟨h0, h1, h2⟩
    simp [parse_problem_condition, parseGo, h0, h1, h2]

/-- C7 witness: the statement at a response sequence that fails with a
network error on every attempt. -/
theorem C7_detail_retry_witness :
    (parse_problem_condition (fun _ => FetchOutcome.netError)).2 ≤ 3 ∧
    parse_problem_condition (fun _ => FetchOutcome.netError) = (none, 3) :=
  ⟨(C7_detail_retry_bounded (fun _ => FetchOutcome.netError)).1,
   (C7_detail_retry_bounded (fun _ => FetchOutcome.netError)).2 ⟨rfl, rfl, rfl⟩⟩

/-- C8: a 404 response on the first attempt makes
parse_problem_condition return None immediately after that single
attempt: no retry, no exception. -/
theorem C8_not_found_terminal (resp : Nat → FetchOutcome)
    (h : resp 0 = FetchOutcome.notFound) :
    parse_problem_condition resp = (none, 1) := by
  simp [parse_problem_condition, parseGo, h]

/-- C8 witness: the statement at an always-404 response sequence. -/
theorem C8_not_found_witness :
    parse_problem_condition (fun _ => FetchOutcome.notFound) = (none, 1) :=
  C8_not_found_terminal (fun _ => FetchOutcome.notFound) rfl

/-- C9: counterexample to "the errors counter is incremented for an
item whose persistence fails with a non-uniqueness storage error" — an
item whose insert violates NOT NULL (contest_id value None) makes
save_problem return False, yet the run's statistics stay
(processed 0, errors 0, skipped 0): no counter is incremented. -/
theorem C9_save_failure_not_counted :
    (save_problem badP "text" emptyDB).1 = false ∧
    process_problems demoOracle [badP] emptyDB =
      ({ processed := 0, errors := 0, skipped := 0 }, 1, emptyDB) := by
  exact ⟨rfl, rfl⟩

/-- C9 amended: for an item whose persistence fails with a storage
error other than a uniqueness violation, iteration continues to the
next item and the run still completes and returns statistics, but no
counter is incremented for that item: the statistics and final store
equal those of the run without the failing item, with only the fetch
count one higher. -/
theorem C9_failed_save_skips_counters (d : DetailOracle) (t : String)
    (rest : List ProblemData) (s : DBState)
    (hd : d none "A" = some t) (ht : t ≠ "") :
    process_problems d (badP :: rest) s =
      ((process_problems d rest s).1,
       (process_problems d rest s).2.1 + 1,
       (process_problems d rest s).2.2) := by
  have hsave : save_problem badP t s = (false, s) := rfl
  have hD : d badP.contest_id badP.index = some t := hd
  have step : processProblemsAux d (badP :: rest) ⟨0, 0, 0⟩ 0 s =
      processProblemsAux d rest ⟨0, 0, 0⟩ (0 + 1) s := by
    conv_lhs => rw [processProblemsAux]
    rw [hD]
    simp only [badP, ht, if_false]
    rfl
  unfold process_problems
  rw [step]
  exact processProblemsAux_fetch_succ d rest ⟨0, 0, 0⟩ 0 s

/-- C9 witness: the amended statement at the concrete failing item with
a non-empty detail text and an empty remainder. -/
theorem C9_failed_save_witness :
    process_problems demoOracle [badP] emptyDB =
      ((process_problems demoOracle [] emptyDB).1,
       (process_problems demoOracle [] emptyDB).2.1 + 1,
       (process_problems demoOracle [] emptyDB).2.2) :=
  C9_failed_save_skips_counters demoOracle "text" [] emptyDB rfl (by decide)

/-- C10: the scheduled task resolves the attribute
check_and_parse_new_problems on a CodeforcesParser instance; no such
attribute exists, so every invocation raises AttributeError and the
hourly sync never completes successfully. -/
theorem C10_scheduled_task_attribute_error :
    check_for_new_problems = Except.error "AttributeError" := rfl

end TaskTg
